import Mathlib

/-!
Shallow embedding of the dispatch state machine and session model of
`GPT_backend.py` (Flask bookshop chatbot).

The external oracle (OpenAI chat-completion) replies are inputs to the model.
Each completion content is modelled at the level the source inspects it: a raw
string for the boolean classifiers and the detail generator (the source only
strips/lowers/compares it), and a parsed JSON value for the calls that run
`json.loads` (with a separate constructor for a reply that is not valid JSON).
A completion call that raises (network failure) is modelled with
`Except.error`, except inside `generate_response` and `fetch_real_links`,
whose own failure handling is part of the source and is modelled explicitly.
-/

/-- Python `str.lower()` as used on the ASCII oracle replies the source
compares against (`"true"`, `"null"`). -/
def pyLower (s : String) : String := String.mk (s.data.map Char.toLower)

/-- Python `str.strip()`: remove leading and trailing whitespace. -/
def pyStrip (s : String) : String :=
  String.mk (((s.data.dropWhile Char.isWhitespace).reverse.dropWhile Char.isWhitespace).reverse)

/-- Python `str.replace(' ', '+')` as used by the search-link fallback of
`fetch_real_links`. -/
def plusForSpace (s : String) : String :=
  String.mk (s.data.map (fun c => if c = ' ' then '+' else c))

/-- A chat message, both as stored in `ChatHistory.messages` and as sent to
the oracle (`{"role": ..., "content": ...}`).  The `timestamp` field of the
source's `Message` is wall-clock I/O and is not modelled; no claim mentions
it. -/
structure Message where
  role : String
  content : String
deriving DecidableEq, Repr

/-- The source's `Message(role="user", content=query)`. -/
def mkUser (q : String) : Message := ⟨"user", q⟩

/-- The source's `Message(role="assistant", content=...)`. -/
def mkAssistant (t : String) : Message := ⟨"assistant", t⟩

/-- A JSON value, the result of a successful `json.loads`. -/
inductive Json where
  | null : Json
  | bool (b : Bool) : Json
  | num (q : ℚ) : Json
  | str (s : String) : Json
  | arr (xs : List Json) : Json
  | obj (fields : List (String × Json)) : Json

/-- Python truthiness of a JSON value, as tested by `if matched_book:` in the
route handler (`None`, `False`, `0`, `""`, `[]`, `{}` are falsy). -/
def Json.truthy : Json → Bool
  | .null => false
  | .bool b => b
  | .num q => q != 0
  | .str s => s != ""
  | .arr xs => !xs.isEmpty
  | .obj fs => !fs.isEmpty

/-- Key lookup in a JSON object's field list (Python `dict` access; objects
produced by `json.loads` have no duplicate keys). -/
def lookupFields : List (String × Json) → String → Option Json
  | [], _ => none
  | (k2, v) :: rest, k => if k2 = k then some v else lookupFields rest k

/-- Numeric value of a list of decimal digit characters. -/
def digitsToNat (cs : List Char) : ℕ :=
  cs.foldl (fun a c => 10 * a + (c.toNat - 48)) 0

/-- Python `float(s)` on a string, for the plain decimal forms
(`[+-]digits[.digits]`, `[+-].digits`, surrounding whitespace allowed).
Exponent notation, `inf` and `nan` are not modelled; such strings are treated
as a conversion failure. -/
def pyFloatOfString (s : String) : Option ℚ :=
  let cs := (pyStrip s).data
  let sgn : ℚ := match cs with
    | '-' :: _ => -1
    | _ => 1
  let body : List Char := match cs with
    | '-' :: rest => rest
    | '+' :: rest => rest
    | _ => cs
  let ip := body.takeWhile (fun c => c ≠ '.')
  let rest := body.dropWhile (fun c => c ≠ '.')
  if ip.all Char.isDigit then
    match rest with
    | [] => if ip.isEmpty then none else some (sgn * (digitsToNat ip : ℚ))
    | _ :: frac =>
      if frac.all Char.isDigit && (!ip.isEmpty || !frac.isEmpty) then
        some (sgn * ((digitsToNat ip : ℚ) + (digitsToNat frac : ℚ) / (10 ^ frac.length)))
      else none
  else none

/-- The price processing step of `generate_response`: keep the value if
`isinstance(book['price'], (int, float))` (note Python `bool` is an `int`
subclass, and pydantic then coerces it to `1.0`/`0.0`), otherwise apply
`float(...)`, which succeeds on numeric strings and raises on anything
else. -/
def priceVal : Json → Option ℚ
  | .num q => some q
  | .bool b => some (if b then 1 else 0)
  | .str s => pyFloatOfString s
  | _ => none

/-- The source's `Book` pydantic model. -/
structure Book where
  title : String
  author : List String
  price : ℚ
  summary : String
  purchase_links : List (String × String)
deriving DecidableEq, Repr

/-- Python `book.dict()`: the JSON-dict form of a `Book`, as stored in
`ChatHistory.last_recommended_books` and returned on the wire. -/
def Book.toJson (b : Book) : Json :=
  .obj [("title", .str b.title),
        ("author", .arr (b.author.map .str)),
        ("price", .num b.price),
        ("summary", .str b.summary),
        ("purchase_links", .obj (b.purchase_links.map (fun p => (p.1, .str p.2))))]

/-- The source's `Output` pydantic model. -/
structure Output where
  books : List Book
deriving DecidableEq, Repr

/-- The completion content received by `is_book_followup`, classified the way
the source inspects it: `content.strip().lower() == 'null'` is checked first
on the raw string, then `json.loads(content)` either yields a value or raises
(any failure inside the `try`, including a missing content attribute, is
`malformed`). -/
inductive FollowupContent where
  | nullStr : FollowupContent
  | json (j : Json) : FollowupContent
  | malformed : FollowupContent

/-- The oracle interaction of one `fetch_real_links` call.  The completion
call itself is outside the function's `try` block, so its failure (`raise`)
propagates to `generate_response`; `content` carries the outcome of the
brace-extraction plus `json.loads` step (`none`: not parseable). -/
inductive LinkReply where
  | raise (msg : String) : LinkReply
  | content (j : Option Json) : LinkReply

/-- One request's worth of oracle replies, one field per completion call site.
`recReply` is the parsed outcome of the `generate_response` completion
(`none` covers both a failed call and non-JSON content, which the source
treats identically via its surrounding `try`); `linkReplies i` is the reply
to the `fetch_real_links` call for the `i`-th recommended book. -/
structure Oracle where
  topicReply : Except String String
  followupReply : Except String FollowupContent
  criteriaReply : Except String String
  detailReply : Except String String
  recReply : Option Json
  linkReplies : ℕ → LinkReply

/-- Python `l[-n:]`: the last `n` elements of a list. -/
def lastN (l : List α) (n : ℕ) : List α := l.drop (l.length - n)

/-- The system prompt of `analyze_query` (two adjacent source literals,
concatenated). -/
def topicSystemContent : String :=
  "Please analyze the user\x27s message and determine if it is related to books or bookshops. Return \x27true\x27 if it is related, and \x27false\x27 if it is not."

/-- The message list `analyze_query` sends to the oracle: the system prompt,
then the last 3 messages of the supplied history, then the query as a final
user message. -/
def analyze_query_messages (query : String) (chat_history : List Message) : List Message :=
  ⟨"system", topicSystemContent⟩ :: lastN chat_history 3 ++ [mkUser query]

/-- The source's `analyze_query`: true iff the completion content, stripped
and lowercased, equals `"true"`.  A failed completion call propagates. -/
def analyze_query (query : String) (chat_history : List Message)
    (reply : Except String String) : Except String Bool :=
  reply.map (fun s => pyLower (pyStrip s) == "true")

/-- The source's `is_book_followup`: returns `None` immediately when
`last_books` is empty (before any oracle call); otherwise the completion
content yields `None` for the `'null'` string or a parse failure, and the
parsed JSON value otherwise.  A failed completion call propagates (the call
is outside the `try` block). -/
def is_book_followup (query : String) (last_books : List Json)
    (reply : Except String FollowupContent) : Except String (Option Json) :=
  if last_books.isEmpty then .ok none
  else
    match reply with
    | .error e => .error e
    | .ok .nullStr => .ok none
    | .ok .malformed => .ok none
    | .ok (.json j) => .ok (some j)

/-- The source's `is_criteria_followup`: true iff the completion content,
stripped and lowercased, equals `"true"`.  A failed completion call
propagates. -/
def is_criteria_followup (query last_query : String)
    (reply : Except String String) : Except String Bool :=
  reply.map (fun s => pyLower (pyStrip s) == "true")

/-- Whether `get_book_details` can build its prompt from `book`: it reads
`book['title']`, `', '.join(book['author'])` and `book['summary']`, so the
book must be a dict with those keys and `author` must be a string or a list
of strings, else a `KeyError`/`TypeError` is raised before the oracle is
called. -/
def detailPromptOk (book : Json) : Bool :=
  match book with
  | .obj fs =>
    (lookupFields fs "title").isSome && (lookupFields fs "summary").isSome &&
    (match lookupFields fs "author" with
     | some (.arr xs) => xs.all (fun j => match j with | .str _ => true | _ => false)
     | some (.str _) => true
     | _ => false)
  | _ => false

/-- The source's `get_book_details`: builds a prompt from the book's fields
(raising if they are absent or ill-typed) and returns the stripped completion
content.  A failed completion call propagates. -/
def get_book_details (book : Json) (query : String)
    (reply : Except String String) : Except String String :=
  if detailPromptOk book then reply.map pyStrip else .error "KeyError"

/-- The search-link fallback of `fetch_real_links`, built from the title
(`title.lower().replace(' ', '+')`). -/
def searchLinks (title : String) : List (String × Json) :=
  let slug := plusForSpace (pyLower title)
  [("amazon", .str ("https://www.amazon.it/s?k=" ++ slug)),
   ("lafeltrinelli", .str ("https://www.lafeltrinelli.it/search?q=" ++ slug))]

/-- The source's `fetch_real_links`: a failed completion call propagates to
`generate_response`; a reply whose extracted JSON is a dict containing both
an `amazon` and a `lafeltrinelli` key is returned as-is (values unchecked);
any other reply falls back to search links built from the title — raising
`AttributeError` when the title is not a string. -/
def fetch_real_links (title author : Json) (lr : LinkReply) :
    Except String (List (String × Json)) :=
  let fallback : Except String (List (String × Json)) :=
    match title with
    | .str t => .ok (searchLinks t)
    | _ => .error "AttributeError"
  match lr with
  | .raise e => .error e
  | .content none => fallback
  | .content (some j) =>
    match j with
    | .obj fs =>
      if (lookupFields fs "amazon").isSome && (lookupFields fs "lafeltrinelli").isSome then
        .ok fs
      else fallback
    | _ => fallback

/-- Extract a string list from a JSON list (pydantic `List[str]` validation;
the scalar-to-string coercions pydantic would additionally perform are not
modelled and count as validation failure). -/
def strList : List Json → Option (List String)
  | [] => some []
  | .str s :: rest => (strList rest).map (fun ss => s :: ss)
  | _ :: _ => none

/-- Extract string values from JSON object fields (pydantic `Dict[str, str]`
validation; same coercion caveat as `strList`). -/
def strPairs : List (String × Json) → Option (List (String × String))
  | [] => some []
  | (k, .str s) :: rest => (strPairs rest).map (fun ps => (k, s) :: ps)
  | _ :: _ => none

/-- The per-book processing loop body of `generate_response`: require the
five keys, wrap a non-list author into a singleton list, convert the price,
replace the purchase links with the `fetch_real_links` result, and validate
the dict as a pydantic `Book`.  Any failure is an exception caught by
`generate_response`. -/
def processBook (bj : Json) (lr : LinkReply) : Except String Book :=
  match bj with
  | .obj fs =>
    match lookupFields fs "title", lookupFields fs "author", lookupFields fs "price",
          lookupFields fs "summary", lookupFields fs "purchase_links" with
    | some title, some author, some price, some summary, some _ =>
      let authors : List Json := match author with
        | .arr xs => xs
        | x => [x]
      match priceVal price with
      | none => .error "could not convert to float"
      | some p =>
        match fetch_real_links title (authors.headD (.str "")) lr with
        | .error e => .error e
        | .ok links =>
          match title, summary, strList authors, strPairs links with
          | .str t, .str s, some as2, some ls => .ok ⟨t, as2, p, s, ls⟩
          | _, _, _, _ => .error "ValidationError"
    | _, _, _, _, _ => .error "Invalid book structure"
  | _ => .error "Invalid book structure"

/-- The processing loop of `generate_response` over the parsed `books` array,
threading the per-book `fetch_real_links` replies by index. -/
def processBooks : List Json → (ℕ → LinkReply) → ℕ → Except String (List Book)
  | [], _, _ => .ok []
  | b :: rest, lr, i =>
    match processBook b (lr i) with
    | .error e => .error e
    | .ok pb =>
      match processBooks rest lr (i + 1) with
      | .error e => .error e
      | .ok pbs => .ok (pb :: pbs)

/-- The hardcoded default list `generate_response` returns on any error. -/
def fallbackBooks : List Book :=
  [⟨"The Great Gatsby", ["F. Scott Fitzgerald"], 12.99,
    "A story of the fabulously wealthy Jay Gatsby and his love for the beautiful Daisy Buchanan.",
    [("amazon", "https://www.amazon.it/Great-Gatsby-F-Scott-Fitzgerald/dp/0141182636"),
     ("lafeltrinelli", "https://www.lafeltrinelli.it/libri/f-scott-fitzgerald/great-gatsby-9780141182636")]⟩,
   ⟨"1984", ["George Orwell"], 14.99,
    "A dystopian novel set in a totalitarian society where critical thought is suppressed.",
    [("amazon", "https://www.amazon.it/1984-George-Orwell/dp/0451524934"),
     ("lafeltrinelli", "https://www.lafeltrinelli.it/libri/george-orwell/1984-9780451524935")]⟩,
   ⟨"To Kill a Mockingbird", ["Harper Lee"], 13.99,
    "The story of racial injustice and the loss of innocence in the American South.",
    [("amazon", "https://www.amazon.it/Kill-Mockingbird-Harper-Lee/dp/0446310786"),
     ("lafeltrinelli", "https://www.lafeltrinelli.it/libri/harper-lee/kill-mockingbird-9780446310789")]⟩]

/-- The body of `generate_response`'s `try` block after the completion call:
the content must parse as a dict containing a non-empty `books` list, and
every entry must survive `processBook`. -/
def generate_response_core (recReply : Option Json) (linkReplies : ℕ → LinkReply) :
    Except String (List Book) :=
  match recReply with
  | none => .error "could not parse JSON"
  | some data =>
    match data with
    | .obj fs =>
      match lookupFields fs "books" with
      | none => .error "Invalid response structure"
      | some b =>
        match b with
        | .arr bs => if bs.isEmpty then .error "No books in response" else processBooks bs linkReplies 0
        | _ => .error "No books in response"
    | _ => .error "Invalid response structure"

/-- The source's `generate_response`: every failure inside its `try` block
(completion failure, parse failure, validation failure, a propagated
`fetch_real_links` failure) yields the hardcoded default `fallbackBooks`;
the `query`, `chat_history` and `criteria` arguments only shape the prompt
and never affect which books the model of the adapter returns. -/
def generate_response (query : String) (chat_history : List Message)
    (criteria : Option String) (recReply : Option Json) (linkReplies : ℕ → LinkReply) : Output :=
  match generate_response_core recReply linkReplies with
  | .ok bs => ⟨bs⟩
  | .error _ => ⟨fallbackBooks⟩

/-- The source's `ChatHistory` pydantic model (one per session key). -/
structure ChatHistory where
  messages : List Message
  last_recommended_books : List Json
  last_query : Option String

/-- A fresh `ChatHistory()` with the source's field defaults. -/
def ChatHistory.init : ChatHistory := ⟨[], [], none⟩

/-- One completion call made during a request's dispatch, with the arguments
the route handler supplies (per-book link fetches inside `generate_response`
are part of its `recommend` event). -/
inductive OracleCall where
  | bookFollowup (query : String) (last_books : List Json) : OracleCall
  | criteriaFollowup (query : String) (last_query : String) : OracleCall
  | topic (query : String) (history : List Message) : OracleCall
  | detail (book : Json) (query : String) : OracleCall
  | recommend (query : String) (history : List Message) (criteria : Option String) : OracleCall

/-- Whether a trace event is the book-followup match call. -/
def OracleCall.isBookFollowup : OracleCall → Bool
  | .bookFollowup _ _ => true
  | _ => false

/-- Whether a trace event is the criteria-followup classification call. -/
def OracleCall.isCriteria : OracleCall → Bool
  | .criteriaFollowup _ _ => true
  | _ => false

/-- Whether a trace event is the topic classification call. -/
def OracleCall.isTopic : OracleCall → Bool
  | .topic _ _ => true
  | _ => false

/-- Whether a trace event is a recommendation generation call. -/
def OracleCall.isRecommend : OracleCall → Bool
  | .recommend _ _ _ => true
  | _ => false

/-- Outcome of one dispatch: the route handler's result (`Except.error` is an
exception reaching the top-level handler), the session state as left behind,
and the sequence of completion calls that were made. -/
structure DispatchResult where
  outcome : Except String (String × Option (List Json))
  state : ChatHistory
  trace : List OracleCall

/-- The fixed off-topic rejection text. -/
def rejectionText : String :=
  "I\x27m just a bookseller, I can help you find the next book to read but nothing else"

/-- The fixed caption of the criteria-followup branch. -/
def criteriaCaption : String := "Here are some books matching your criteria:"

/-- The fixed caption of the fresh-recommendation branch. -/
def freshCaption : String := "Here are some books you might like:"

/-- Branch 1 of the route handler (book followup), acting on the state with
the user message already appended.  `Sum.inl tr` means fall through to the
next branch having made the calls `tr`; `Sum.inr` is a final result. -/
def bookStep (q : String) (h1 : ChatHistory) (o : Oracle) :
    List OracleCall ⊕ DispatchResult :=
  if h1.last_recommended_books.isEmpty then .inl []
  else
    let ev := OracleCall.bookFollowup q h1.last_recommended_books
    match is_book_followup q h1.last_recommended_books o.followupReply with
    | .error e => .inr ⟨.error e, h1, [ev]⟩
    | .ok none => .inl [ev]
    | .ok (some j) =>
      if j.truthy then
        let tr := ev :: (if detailPromptOk j then [OracleCall.detail j q] else [])
        match get_book_details j q o.detailReply with
        | .error e => .inr ⟨.error e, h1, tr⟩
        | .ok t => .inr ⟨.ok (t, none), { h1 with messages := h1.messages ++ [mkAssistant t] }, tr⟩
      else .inl [ev]

/-- Branch 2 of the route handler (criteria followup).  Mirrors
`chat_history.last_query and is_criteria_followup(...)`: a `None` or empty
`last_query` falls through without an oracle call; on a `true` classification
the *stored* `last_query` is re-sent as the base query with the current query
as criteria, `last_recommended_books` is replaced, and `last_query` is not
touched. -/
def criteriaStep (q : String) (h1 : ChatHistory) (o : Oracle) :
    List OracleCall ⊕ DispatchResult :=
  match h1.last_query with
  | none => .inl []
  | some lq =>
    if lq = "" then .inl []
    else
      let ev := OracleCall.criteriaFollowup q lq
      match is_criteria_followup q lq o.criteriaReply with
      | .error e => .inr ⟨.error e, h1, [ev]⟩
      | .ok false => .inl [ev]
      | .ok true =>
        let answer := generate_response lq h1.messages (some q) o.recReply o.linkReplies
        let bjs := answer.books.map Book.toJson
        .inr ⟨.ok (criteriaCaption, some bjs),
              { h1 with last_recommended_books := bjs,
                        messages := h1.messages ++ [mkAssistant criteriaCaption] },
              [ev, .recommend lq h1.messages (some q)]⟩

/-- Branches 3 and 4 of the route handler (topic classification, then fresh
recommendation).  Off-topic leaves `last_recommended_books` and `last_query`
untouched; the fresh branch replaces both. -/
def topicStep (q : String) (h1 : ChatHistory) (o : Oracle) : DispatchResult :=
  let ev := OracleCall.topic q h1.messages
  match analyze_query q h1.messages o.topicReply with
  | .error e => ⟨.error e, h1, [ev]⟩
  | .ok false =>
    ⟨.ok (rejectionText, none),
     { h1 with messages := h1.messages ++ [mkAssistant rejectionText] }, [ev]⟩
  | .ok true =>
    let answer := generate_response q h1.messages none o.recReply o.linkReplies
    let bjs := answer.books.map Book.toJson
    ⟨.ok (freshCaption, some bjs),
     { h1 with last_recommended_books := bjs,
               last_query := some q,
               messages := h1.messages ++ [mkAssistant freshCaption] },
     [ev, .recommend q h1.messages none]⟩

/-- The dispatch chain of the route handler for one non-rejected request: the
user message is appended first, then the three steps run in source order,
short-circuiting on a final result. -/
def dispatch (q : String) (h0 : ChatHistory) (o : Oracle) : DispatchResult :=
  let h1 : ChatHistory := { h0 with messages := h0.messages ++ [mkUser q] }
  match bookStep q h1 o with
  | .inr r => r
  | .inl tr1 =>
    match criteriaStep q h1 o with
    | .inr r => { r with trace := tr1 ++ r.trace }
    | .inl tr2 =>
      let r := topicStep q h1 o
      { r with trace := tr1 ++ tr2 ++ r.trace }

/-- The request body fields the route handler reads (`data.get('query')`,
`data.get('session_id', 'default')`); `none` models an absent key. -/
structure ChatRequest where
  query : Option String
  session_id : Option String

/-- The wire-level outcome of one `/chatbot` call: a 200 payload, the 400
validation rejection, or the 500 produced by the top-level handler. -/
inductive ChatResponse where
  | ok (response : String) (books : Option (List Json)) (session_id : String) : ChatResponse
  | badRequest (error : String) : ChatResponse
  | serverError (error : String) : ChatResponse

/-- The module-level `chat_histories` dict, keyed by session id. -/
def Store : Type := List (String × ChatHistory)

/-- Python `chat_histories[k]` lookup. -/
def storeGet (store : Store) (k : String) : Option ChatHistory :=
  match store with
  | [] => none
  | (k2, v) :: rest => if k2 = k then some v else storeGet rest k

/-- Python `chat_histories[k] = v` (insert or overwrite). -/
def storeSet (store : Store) (k : String) (v : ChatHistory) : Store :=
  match store with
  | [] => [(k, v)]
  | (k2, v2) :: rest => if k2 = k then (k2, v) :: rest else (k2, v2) :: storeSet rest k v

/-- The source's `chatbot` route handler: validates the query (a missing or
falsy query is rejected with 400 before any state is touched), gets or
creates the session state, runs the dispatch chain, stores the resulting
state back (also on an exception, since mutations act on the stored object),
and converts an uncaught exception into a 500 with the error's message. -/
def chatbot (store : Store) (req : ChatRequest) (o : Oracle) :
    ChatResponse × Store × List OracleCall :=
  let sid := req.session_id.getD "default"
  match req.query with
  | none => (.badRequest "No query provided", store, [])
  | some q =>
    if q = "" then (.badRequest "No query provided", store, [])
    else
      let h0 := (storeGet store sid).getD ChatHistory.init
      let r := dispatch q h0 o
      let store2 := storeSet store sid r.state
      match r.outcome with
      | .ok (text, books) => (.ok text books sid, store2, r.trace)
      | .error e => (.serverError e, store2, r.trace)

/-- Extract the `books` array from a parsed recommendation reply, when the
reply has the dict-with-list shape `generate_response` requires. -/
def booksField (recReply : Option Json) : Option (List Json) :=
  match recReply with
  | some (.obj fs) =>
    match lookupFields fs "books" with
    | some (.arr bs) => some bs
    | _ => none
  | _ => none

/-- The guard condition under which branch 1 (book followup) falls through to
branch 2: no previous recommendations, or an oracle reply the source maps to
`None` (`'null'` string or unparseable content), or a parsed value that is
falsy in Python. -/
def bfFallsThrough (h0 : ChatHistory) (o : Oracle) : Prop :=
  h0.last_recommended_books = [] ∨
  o.followupReply = .ok .nullStr ∨
  o.followupReply = .ok .malformed ∨
  ∃ j, o.followupReply = .ok (.json j) ∧ j.truthy = false

/-- The guard condition under which branch 2 (criteria followup) falls
through to branch 3: no stored `last_query` (or an empty one, falsy in
Python), or a classification reply that is not `"true"`. -/
def cfFallsThrough (h0 : ChatHistory) (o : Oracle) : Prop :=
  h0.last_query = none ∨ h0.last_query = some "" ∨
  ∃ s, o.criteriaReply = .ok s ∧ pyLower (pyStrip s) ≠ "true"

/-- The completion calls branch 1 contributes to the trace when it falls
through. -/
def bfTrace (q : String) (h0 : ChatHistory) : List OracleCall :=
  if h0.last_recommended_books.isEmpty then []
  else [.bookFollowup q h0.last_recommended_books]

/-- The completion calls branch 2 contributes to the trace when it falls
through. -/
def cfTrace (q : String) (h0 : ChatHistory) : List OracleCall :=
  match h0.last_query with
  | none => []
  | some lq => if lq = "" then [] else [.criteriaFollowup q lq]

/-- The completion calls a branch contributed, whether it fell through or
produced a final result. -/
def stepTrace : List OracleCall ⊕ DispatchResult → List OracleCall
  | .inl tr => tr
  | .inr r => r.trace

/-! ## Helper lemmas -/

theorem storeGet_storeSet (store : Store) (k : String) (v : ChatHistory) :
    storeGet (storeSet store k v) k = some v := by
  induction store with
  | nil => simp [storeSet, storeGet]
  | cons p rest ih =>
    obtain ⟨k2, v2⟩ := p
    by_cases h : k2 = k <;> simp [storeSet, storeGet, h, ih]

theorem processBooks_length (bs : List Json) (lr : ℕ → LinkReply) (i : ℕ) (l : List Book)
    (h : processBooks bs lr i = .ok l) : l.length = bs.length := by
  induction bs generalizing i l with
  | nil =>
    simp only [processBooks] at h
    cases h
    rfl
  | cons b rest ih =>
    simp only [processBooks] at h
    cases hb : processBook b (lr i) with
    | error e => rw [hb] at h; cases h
    | ok pb =>
      rw [hb] at h
      cases hr : processBooks rest lr (i + 1) with
      | error e => rw [hr] at h; cases h
      | ok pbs =>
        rw [hr] at h
        cases h
        simp [ih _ _ hr]

theorem mem_lastN_append (xs : List α) (m : α) (n : ℕ) (hn : 0 < n) :
    m ∈ lastN (xs ++ [m]) n := by
  unfold lastN
  have hk : (xs ++ [m]).length - n ≤ xs.length := by
    simp only [List.length_append, List.length_singleton]
    omega
  rw [List.drop_append_of_le_length hk]
  exact List.mem_append_right _ (List.mem_singleton.mpr rfl)

theorem bookStep_fall (q : String) (h1 : ChatHistory) (o : Oracle)
    (h : h1.last_recommended_books = [] ∨ o.followupReply = .ok .nullStr ∨
         o.followupReply = .ok .malformed ∨
         ∃ j, o.followupReply = .ok (.json j) ∧ j.truthy = false) :
    bookStep q h1 o = .inl (bfTrace q h1) := by
  by_cases hb : h1.last_recommended_books = []
  · simp [bookStep, bfTrace, hb]
  · rcases h with h | h | h | ⟨j, hj, ht⟩
    · exact absurd h hb
    · simp [bookStep, bfTrace, is_book_followup, hb, h]
    · simp [bookStep, bfTrace, is_book_followup, hb, h]
    · simp [bookStep, bfTrace, is_book_followup, hb, hj, ht]

theorem bookStep_error (q : String) (h1 : ChatHistory) (o : Oracle) (e : String)
    (hb : h1.last_recommended_books ≠ [])
    (hr : o.followupReply = .error e) :
    bookStep q h1 o = .inr ⟨.error e, h1, [.bookFollowup q h1.last_recommended_books]⟩ := by
  simp [bookStep, is_book_followup, hb, hr]

theorem bookStep_match (q : String) (h1 : ChatHistory) (o : Oracle) (j : Json)
    (hb : h1.last_recommended_books ≠ [])
    (hr : o.followupReply = .ok (.json j)) (ht : j.truthy = true) :
    bookStep q h1 o =
      match get_book_details j q o.detailReply with
      | .error e => .inr ⟨.error e, h1,
          .bookFollowup q h1.last_recommended_books ::
            (if detailPromptOk j then [.detail j q] else [])⟩
      | .ok t => .inr ⟨.ok (t, none),
          { h1 with messages := h1.messages ++ [mkAssistant t] },
          .bookFollowup q h1.last_recommended_books ::
            (if detailPromptOk j then [.detail j q] else [])⟩ := by
  have hemp : h1.last_recommended_books.isEmpty = false := by
    simpa [List.isEmpty_iff] using hb
  simp only [bookStep, is_book_followup, hemp, Bool.false_eq_true, if_false, hr, ht, if_true]

theorem criteriaStep_fall (q : String) (h1 : ChatHistory) (o : Oracle)
    (h : h1.last_query = none ∨ h1.last_query = some "" ∨
         ∃ s, o.criteriaReply = .ok s ∧ pyLower (pyStrip s) ≠ "true") :
    criteriaStep q h1 o = .inl (cfTrace q h1) := by
  rcases h with h | h | ⟨s, hs, hne⟩
  · simp [criteriaStep, cfTrace, h]
  · simp [criteriaStep, cfTrace, h]
  · cases hlq : h1.last_query with
    | none => simp [criteriaStep, cfTrace, hlq]
    | some lq =>
      by_cases he : lq = ""
      · simp [criteriaStep, cfTrace, hlq, he]
      · simp [criteriaStep, cfTrace, is_criteria_followup, Except.map, hlq, he, hs,
              beq_eq_false_iff_ne.mpr hne]

theorem criteriaStep_error (q lq : String) (h1 : ChatHistory) (o : Oracle) (e : String)
    (hlq : h1.last_query = some lq) (hne : lq ≠ "")
    (hr : o.criteriaReply = .error e) :
    criteriaStep q h1 o = .inr ⟨.error e, h1, [.criteriaFollowup q lq]⟩ := by
  simp [criteriaStep, is_criteria_followup, Except.map, hlq, hne, hr]

theorem criteriaStep_true (q lq s : String) (h1 : ChatHistory) (o : Oracle)
    (hlq : h1.last_query = some lq) (hne : lq ≠ "")
    (hr : o.criteriaReply = .ok s) (hs : pyLower (pyStrip s) = "true") :
    criteriaStep q h1 o =
      .inr ⟨.ok (criteriaCaption,
                 some ((generate_response lq h1.messages (some q) o.recReply o.linkReplies).books.map Book.toJson)),
            { h1 with
                last_recommended_books :=
                  (generate_response lq h1.messages (some q) o.recReply o.linkReplies).books.map Book.toJson,
                messages := h1.messages ++ [mkAssistant criteriaCaption] },
            [.criteriaFollowup q lq, .recommend lq h1.messages (some q)]⟩ := by
  simp [criteriaStep, is_criteria_followup, Except.map, hlq, hne, hr, hs]

theorem topicStep_error (q : String) (h1 : ChatHistory) (o : Oracle) (e : String)
    (hr : o.topicReply = .error e) :
    topicStep q h1 o = ⟨.error e, h1, [.topic q h1.messages]⟩ := by
  simp [topicStep, analyze_query, Except.map, hr]

theorem topicStep_offtopic (q s : String) (h1 : ChatHistory) (o : Oracle)
    (hr : o.topicReply = .ok s) (hs : pyLower (pyStrip s) ≠ "true") :
    topicStep q h1 o =
      ⟨.ok (rejectionText, none),
       { h1 with messages := h1.messages ++ [mkAssistant rejectionText] },
       [.topic q h1.messages]⟩ := by
  simp [topicStep, analyze_query, Except.map, hr, beq_eq_false_iff_ne.mpr hs]

theorem topicStep_fresh (q s : String) (h1 : ChatHistory) (o : Oracle)
    (hr : o.topicReply = .ok s) (hs : pyLower (pyStrip s) = "true") :
    topicStep q h1 o =
      ⟨.ok (freshCaption,
            some ((generate_response q h1.messages none o.recReply o.linkReplies).books.map Book.toJson)),
       { h1 with
           last_recommended_books :=
             (generate_response q h1.messages none o.recReply o.linkReplies).books.map Book.toJson,
           last_query := some q,
           messages := h1.messages ++ [mkAssistant freshCaption] },
       [.topic q h1.messages, .recommend q h1.messages none]⟩ := by
  simp [topicStep, analyze_query, Except.map, hr, hs]

theorem bookStep_trace_classify (q : String) (h1 : ChatHistory) (o : Oracle) (c : OracleCall)
    (h : c ∈ stepTrace (bookStep q h1 o)) :
    (∃ lb, c = .bookFollowup q lb) ∨ ∃ j, c = .detail j q := by
  unfold bookStep at h
  by_cases hb : h1.last_recommended_books.isEmpty
  · rw [if_pos hb] at h
    simp [stepTrace] at h
  · rw [if_neg hb] at h
    cases hf : is_book_followup q h1.last_recommended_books o.followupReply with
    | error e =>
      rw [hf] at h
      simp only [stepTrace, List.mem_singleton] at h
      exact Or.inl ⟨_, h⟩
    | ok mb =>
      rw [hf] at h
      cases mb with
      | none =>
        simp only [stepTrace, List.mem_singleton] at h
        exact Or.inl ⟨_, h⟩
      | some j =>
        dsimp only at h
        cases ht : j.truthy with
        | false =>
          rw [ht] at h
          simp only [stepTrace, Bool.false_eq_true, if_false, List.mem_singleton] at h
          exact Or.inl ⟨_, h⟩
        | true =>
          rw [ht] at h
          simp only [if_true] at h
          have htr : c ∈ OracleCall.bookFollowup q h1.last_recommended_books ::
              (if detailPromptOk j then [OracleCall.detail j q] else []) := by
            cases hg : get_book_details j q o.detailReply with
            | error e => rw [hg] at h; exact h
            | ok t => rw [hg] at h; exact h
          simp only [List.mem_cons] at htr
          rcases htr with htr | htr
          · exact Or.inl ⟨_, htr⟩
          · by_cases hd : detailPromptOk j
            · rw [if_pos hd] at htr
              simp only [List.mem_singleton] at htr
              exact Or.inr ⟨_, htr⟩
            · rw [if_neg hd] at htr
              simp at htr

theorem criteriaStep_trace_classify (q : String) (h1 : ChatHistory) (o : Oracle) (c : OracleCall)
    (h : c ∈ stepTrace (criteriaStep q h1 o)) :
    (∃ lq, c = .criteriaFollowup q lq) ∨ ∃ lq, c = .recommend lq h1.messages (some q) := by
  unfold criteriaStep at h
  split at h
  · simp [stepTrace] at h
  · split at h
    · simp [stepTrace] at h
    · split at h
      · simp only [stepTrace, List.mem_singleton] at h
        exact Or.inl ⟨_, h⟩
      · simp only [stepTrace, List.mem_singleton] at h
        exact Or.inl ⟨_, h⟩
      · simp only [stepTrace, List.mem_cons, List.mem_singleton] at h
        rcases h with h | h | h
        · exact Or.inl ⟨_, h⟩
        · exact Or.inr ⟨_, h⟩
        · simp at h

theorem topicStep_trace_classify (q : String) (h1 : ChatHistory) (o : Oracle) (c : OracleCall)
    (h : c ∈ (topicStep q h1 o).trace) :
    c = .topic q h1.messages ∨ c = .recommend q h1.messages none := by
  unfold topicStep at h
  split at h <;> simp only [List.mem_singleton, List.mem_cons] at h <;> tauto

theorem dispatch_trace_mem (q : String) (h0 : ChatHistory) (o : Oracle) (c : OracleCall)
    (h : c ∈ (dispatch q h0 o).trace) :
    c ∈ stepTrace (bookStep q { h0 with messages := h0.messages ++ [mkUser q] } o) ∨
    c ∈ stepTrace (criteriaStep q { h0 with messages := h0.messages ++ [mkUser q] } o) ∨
    c ∈ (topicStep q { h0 with messages := h0.messages ++ [mkUser q] } o).trace := by
  simp only [dispatch] at h
  cases hbs : bookStep q { h0 with messages := h0.messages ++ [mkUser q] } o with
  | inr r =>
    rw [hbs] at h
    exact Or.inl h
  | inl tr1 =>
    rw [hbs] at h
    cases hcs : criteriaStep q { h0 with messages := h0.messages ++ [mkUser q] } o with
    | inr r =>
      rw [hcs] at h
      simp only [List.mem_append] at h
      rcases h with h | h
      · exact Or.inl h
      · exact Or.inr (Or.inl h)
    | inl tr2 =>
      rw [hcs] at h
      simp only [List.mem_append] at h
      rcases h with (h | h) | h
      · exact Or.inl h
      · exact Or.inr (Or.inl h)
      · exact Or.inr (Or.inr h)

theorem bookStep_inr (q : String) (h1 : ChatHistory) (o : Oracle) (r : DispatchResult)
    (h : bookStep q h1 o = .inr r) :
    (∃ e, r.outcome = .error e ∧ r.state = h1) ∨
    (∃ t, r.outcome = .ok (t, none) ∧
       r.state = { h1 with messages := h1.messages ++ [mkAssistant t] }) := by
  unfold bookStep at h
  by_cases hb : h1.last_recommended_books.isEmpty
  · rw [if_pos hb] at h; simp at h
  · rw [if_neg hb] at h
    cases hf : is_book_followup q h1.last_recommended_books o.followupReply with
    | error e =>
      rw [hf] at h
      cases h
      exact Or.inl ⟨e, rfl, rfl⟩
    | ok mb =>
      rw [hf] at h
      cases mb with
      | none => simp at h
      | some j =>
        dsimp only at h
        cases ht : j.truthy with
        | false => rw [ht] at h; simp at h
        | true =>
          rw [ht] at h
          simp only [if_true] at h
          cases hg : get_book_details j q o.detailReply with
          | error e => rw [hg] at h; cases h; exact Or.inl ⟨e, rfl, rfl⟩
          | ok t => rw [hg] at h; cases h; exact Or.inr ⟨t, rfl, rfl⟩

theorem criteriaStep_inr (q : String) (h1 : ChatHistory) (o : Oracle) (r : DispatchResult)
    (h : criteriaStep q h1 o = .inr r) :
    (∃ e, r.outcome = .error e ∧ r.state = h1) ∨
    (∃ t bjs, r.outcome = .ok (t, some bjs) ∧
       r.state = { h1 with last_recommended_books := bjs,
                           messages := h1.messages ++ [mkAssistant t] }) := by
  unfold criteriaStep at h
  cases hlq : h1.last_query with
  | none => rw [hlq] at h; simp at h
  | some lq =>
    rw [hlq] at h
    dsimp only at h
    by_cases he : lq = ""
    · rw [if_pos he] at h; simp at h
    · rw [if_neg he] at h
      cases hc : is_criteria_followup q lq o.criteriaReply with
      | error e =>
        rw [hc] at h
        cases h
        exact Or.inl ⟨e, rfl, rfl⟩
      | ok b =>
        rw [hc] at h
        cases b with
        | false => simp at h
        | true =>
          cases h
          exact Or.inr ⟨_, _, rfl, rfl⟩

theorem topicStep_result (q : String) (h1 : ChatHistory) (o : Oracle) :
    (∃ e, (topicStep q h1 o).outcome = .error e ∧ (topicStep q h1 o).state = h1) ∨
    (∃ t b, (topicStep q h1 o).outcome = .ok (t, b) ∧
       (topicStep q h1 o).state.messages = h1.messages ++ [mkAssistant t]) := by
  unfold topicStep
  cases ha : analyze_query q h1.messages o.topicReply with
  | error e => exact Or.inl ⟨e, rfl, rfl⟩
  | ok b =>
    cases b with
    | false => exact Or.inr ⟨rejectionText, none, rfl, rfl⟩
    | true => exact Or.inr ⟨freshCaption, _, rfl, rfl⟩

theorem dispatch_outcome_state (q : String) (h0 : ChatHistory) (o : Oracle) :
    (∀ e, (dispatch q h0 o).outcome = .error e →
       (dispatch q h0 o).state = { h0 with messages := h0.messages ++ [mkUser q] }) ∧
    (∀ t b, (dispatch q h0 o).outcome = .ok (t, b) →
       (dispatch q h0 o).state.messages = (h0.messages ++ [mkUser q]) ++ [mkAssistant t]) := by
  simp only [dispatch]
  cases hbs : bookStep q { h0 with messages := h0.messages ++ [mkUser q] } o with
  | inr r =>
    dsimp only
    rcases bookStep_inr q _ o r hbs with ⟨e, he, hst⟩ | ⟨t, hok, hst⟩
    · refine ⟨fun e2 h2 => by rw [hst], fun t b h2 => ?_⟩
      rw [he] at h2
      cases h2
    · refine ⟨fun e2 h2 => ?_, fun t2 b2 h2 => ?_⟩
      · rw [hok] at h2; cases h2
      · rw [hok] at h2
        cases h2
        rw [hst]
  | inl tr1 =>
    cases hcs : criteriaStep q { h0 with messages := h0.messages ++ [mkUser q] } o with
    | inr r =>
      dsimp only
      rcases criteriaStep_inr q _ o r hcs with ⟨e, he, hst⟩ | ⟨t, bjs, hok, hst⟩
      · refine ⟨fun e2 h2 => by rw [hst], fun t b h2 => ?_⟩
        rw [he] at h2
        cases h2
      · refine ⟨fun e2 h2 => ?_, fun t2 b2 h2 => ?_⟩
        · rw [hok] at h2; cases h2
        · rw [hok] at h2
          cases h2
          rw [hst]
    | inl tr2 =>
      dsimp only
      rcases topicStep_result q { h0 with messages := h0.messages ++ [mkUser q] } o with
        ⟨e, he, hst⟩ | ⟨t, b, hok, hst⟩
      · refine ⟨fun e2 h2 => by rw [hst], fun t b h2 => ?_⟩
        rw [he] at h2
        cases h2
      · refine ⟨fun e2 h2 => ?_, fun t2 b2 h2 => ?_⟩
        · rw [hok] at h2; cases h2
        · rw [hok] at h2
          cases h2
          exact hst

theorem dispatch_bookmatch_case (q : String) (h0 : ChatHistory) (o : Oracle) (j : Json)
    (hb : h0.last_recommended_books ≠ [])
    (hr : o.followupReply = .ok (.json j)) (ht : j.truthy = true) :
    (dispatch q h0 o).trace =
      .bookFollowup q h0.last_recommended_books ::
        (if detailPromptOk j then [.detail j q] else []) ∧
    (dispatch q h0 o).state.last_recommended_books = h0.last_recommended_books ∧
    (dispatch q h0 o).state.last_query = h0.last_query := by
  have hm := bookStep_match q { h0 with messages := h0.messages ++ [mkUser q] } o j hb hr ht
  cases hg : get_book_details j q o.detailReply with
  | error e =>
    rw [hg] at hm
    simp only [dispatch, hm]
    exact ⟨trivial, trivial, trivial⟩
  | ok t =>
    rw [hg] at hm
    simp only [dispatch, hm]
    exact ⟨trivial, trivial, trivial⟩

theorem dispatch_criteria_case (q lq s : String) (h0 : ChatHistory) (o : Oracle)
    (hbf : bfFallsThrough h0 o)
    (hlq : h0.last_query = some lq) (hne : lq ≠ "")
    (hr : o.criteriaReply = .ok s) (hs : pyLower (pyStrip s) = "true") :
    dispatch q h0 o =
      ⟨.ok (criteriaCaption,
            some ((generate_response lq (h0.messages ++ [mkUser q]) (some q)
                    o.recReply o.linkReplies).books.map Book.toJson)),
       ⟨(h0.messages ++ [mkUser q]) ++ [mkAssistant criteriaCaption],
        (generate_response lq (h0.messages ++ [mkUser q]) (some q)
          o.recReply o.linkReplies).books.map Book.toJson,
        h0.last_query⟩,
       bfTrace q h0 ++ [.criteriaFollowup q lq,
                        .recommend lq (h0.messages ++ [mkUser q]) (some q)]⟩ := by
  have hb := bookStep_fall q { h0 with messages := h0.messages ++ [mkUser q] } o hbf
  have hc := criteriaStep_true q lq s { h0 with messages := h0.messages ++ [mkUser q] } o hlq hne hr hs
  simp only [dispatch, hb, hc]
  rw [hlq]
  rfl

theorem dispatch_offtopic_case (q s : String) (h0 : ChatHistory) (o : Oracle)
    (hbf : bfFallsThrough h0 o) (hcf : cfFallsThrough h0 o)
    (hr : o.topicReply = .ok s) (hs : pyLower (pyStrip s) ≠ "true") :
    dispatch q h0 o =
      ⟨.ok (rejectionText, none),
       ⟨(h0.messages ++ [mkUser q]) ++ [mkAssistant rejectionText],
        h0.last_recommended_books,
        h0.last_query⟩,
       bfTrace q h0 ++ cfTrace q h0 ++ [.topic q (h0.messages ++ [mkUser q])]⟩ := by
  have hb := bookStep_fall q { h0 with messages := h0.messages ++ [mkUser q] } o hbf
  have hc := criteriaStep_fall q { h0 with messages := h0.messages ++ [mkUser q] } o hcf
  have htp := topicStep_offtopic q s { h0 with messages := h0.messages ++ [mkUser q] } o hr hs
  simp only [dispatch, hb, hc, htp]
  rfl

theorem dispatch_fresh_case (q s : String) (h0 : ChatHistory) (o : Oracle)
    (hbf : bfFallsThrough h0 o) (hcf : cfFallsThrough h0 o)
    (hr : o.topicReply = .ok s) (hs : pyLower (pyStrip s) = "true") :
    dispatch q h0 o =
      ⟨.ok (freshCaption,
            some ((generate_response q (h0.messages ++ [mkUser q]) none
                    o.recReply o.linkReplies).books.map Book.toJson)),
       ⟨(h0.messages ++ [mkUser q]) ++ [mkAssistant freshCaption],
        (generate_response q (h0.messages ++ [mkUser q]) none
          o.recReply o.linkReplies).books.map Book.toJson,
        some q⟩,
       bfTrace q h0 ++ cfTrace q h0 ++
         [.topic q (h0.messages ++ [mkUser q]),
          .recommend q (h0.messages ++ [mkUser q]) none]⟩ := by
  have hb := bookStep_fall q { h0 with messages := h0.messages ++ [mkUser q] } o hbf
  have hc := criteriaStep_fall q { h0 with messages := h0.messages ++ [mkUser q] } o hcf
  have htp := topicStep_fresh q s { h0 with messages := h0.messages ++ [mkUser q] } o hr hs
  simp only [dispatch, hb, hc, htp]
  rfl

theorem generate_response_core_ok (r : Option Json) (lr : ℕ → LinkReply) (l : List Book)
    (h : generate_response_core r lr = .ok l) :
    ∃ bs, booksField r = some bs ∧ bs ≠ [] ∧ l.length = bs.length := by
  cases r with
  | none => simp [generate_response_core] at h
  | some data =>
    cases data with
    | obj fs =>
      simp only [generate_response_core] at h
      cases hlk : lookupFields fs "books" with
      | none => rw [hlk] at h; cases h
      | some b =>
        rw [hlk] at h
        cases b with
        | arr bs =>
          dsimp only at h
          by_cases hbs : bs.isEmpty
          · rw [if_pos hbs] at h; cases h
          · rw [if_neg hbs] at h
            refine ⟨bs, by simp [booksField, hlk], ?_, processBooks_length bs lr 0 l h⟩
            simpa [List.isEmpty_iff] using hbs
        | null => simp at h
        | bool b2 => simp at h
        | num q2 => simp at h
        | str s2 => simp at h
        | obj fs2 => simp at h
    | null => simp [generate_response_core] at h
    | bool b => simp [generate_response_core] at h
    | num q => simp [generate_response_core] at h
    | str s => simp [generate_response_core] at h
    | arr xs => simp [generate_response_core] at h

/-! ## Claims -/

/-- C1 (amended): `generate_response` returns the fixed hardcoded 3-book
fallback whenever the oracle reply is malformed, fails validation, or carries
an empty `books` list; but when the reply is a well-formed non-empty books
list it returns one `Book` per entry, so the result length equals the reply's
book count — the source only rejects an *empty* list and never enforces
exactly 3. -/
theorem c1_generate_response_length (query : String) (chat_history : List Message)
    (criteria : Option String) (recReply : Option Json) (linkReplies : ℕ → LinkReply) :
    (generate_response query chat_history criteria recReply linkReplies = ⟨fallbackBooks⟩ ∧
       fallbackBooks.length = 3) ∨
    (∃ bs, booksField recReply = some bs ∧ bs ≠ [] ∧
       (generate_response query chat_history criteria recReply linkReplies).books.length
         = bs.length) := by
  cases hc : generate_response_core recReply linkReplies with
  | error e => exact Or.inl ⟨by simp [generate_response, hc], rfl⟩
  | ok l =>
    obtain ⟨bs, h1, h2, h3⟩ := generate_response_core_ok recReply linkReplies l hc
    exact Or.inr ⟨bs, h1, h2, by simp [generate_response, hc, h3]⟩

/-- C1 counterexample: an oracle reply that is a well-formed list of exactly
two books makes `generate_response` return 2 books — not 3 and not the
fallback — refuting that the adapter never returns a list whose length
differs from 3. -/
theorem c1_counterexample :
    (generate_response "recommend a book" [] none
      (some (.obj [("books", .arr
        [.obj [("title", .str "Alpha"), ("author", .arr [.str "A. Author"]),
               ("price", .num 10), ("summary", .str "first"),
               ("purchase_links", .obj [])],
         .obj [("title", .str "Beta"), ("author", .arr [.str "B. Author"]),
               ("price", .num 11), ("summary", .str "second"),
               ("purchase_links", .obj [])]])]))
      (fun _ => .content none)).books.length = 2 := by rfl

/-- C9 (amended): `is_book_followup` returns null on an empty `last_books`
list, on the `'null'` reply and on a malformed reply; but on any parsed JSON
reply it returns the oracle's value as-is — the source never checks that the
returned value is an element of `last_books` (or even a book). -/
theorem c9_is_book_followup_behavior (q : String) (lb : List Json) :
    (lb = [] → ∀ r, is_book_followup q lb r = .ok none) ∧
    (is_book_followup q lb (.ok .nullStr) = .ok none) ∧
    (is_book_followup q lb (.ok .malformed) = .ok none) ∧
    (∀ j, lb ≠ [] → is_book_followup q lb (.ok (.json j)) = .ok (some j)) := by
  refine ⟨?_, ?_, ?_, ?_⟩
  · intro h r
    simp [is_book_followup, h]
  · cases lb <;> simp [is_book_followup]
  · cases lb <;> simp [is_book_followup]
  · intro j hne
    have : lb.isEmpty = false := by simpa [List.isEmpty_iff] using hne
    simp [is_book_followup, this]

/-- C9 counterexample: with a non-empty `last_books`, an oracle reply that
parses to a book *not* in the list is returned unchanged, refuting that the
result is always an element of `last_books`. -/
theorem c9_counterexample :
    is_book_followup "tell me more about it"
        [Json.obj [("title", Json.str "The Hobbit")]]
        (.ok (.json (Json.obj [("title", Json.str "Dune")]))) =
      .ok (some (Json.obj [("title", Json.str "Dune")])) ∧
    Json.obj [("title", Json.str "Dune")] ∉ [Json.obj [("title", Json.str "The Hobbit")]] := by
  refine ⟨rfl, ?_⟩
  intro hmem
  simp only [List.mem_singleton] at hmem
  simp only [Json.obj.injEq, List.cons.injEq, Prod.mk.injEq, Json.str.injEq, and_true] at hmem
  exact absurd hmem.2 (by decide)

/-- C9 witness: the amended behavior evaluated at concrete inputs. -/
theorem c9_witness :
    is_book_followup "x" [] (.error "net down") = .ok none ∧
    is_book_followup "x" [Json.null] (.ok (.json (Json.str "y"))) = .ok (some (Json.str "y")) :=
  ⟨(c9_is_book_followup_behavior "x" []).1 rfl (.error "net down"),
   (c9_is_book_followup_behavior "x" [Json.null]).2.2.2 (Json.str "y") (by simp)⟩

/-- C10 (confirmed): an empty-string query — like an absent one — is rejected
with 400 `No query provided` before the session store is read, created or
mutated. -/
theorem c10_falsy_query_rejected (store : Store) (o : Oracle) (req : ChatRequest)
    (h : req.query = none ∨ req.query = some "") :
    chatbot store req o = (.badRequest "No query provided", store, []) := by
  rcases h with h | h <;> simp [chatbot, h]

/-- C10 witness: the empty-string query evaluated on a concrete store. -/
theorem c10_witness :
    chatbot [("default", ChatHistory.init)] ⟨some "", some "default"⟩
        ⟨.ok "true", .ok .nullStr, .ok "true", .ok "", none, fun _ => .content none⟩ =
      (.badRequest "No query provided", [("default", ChatHistory.init)], []) :=
  c10_falsy_query_rejected [("default", ChatHistory.init)]
    ⟨.ok "true", .ok .nullStr, .ok "true", .ok "", none, fun _ => .content none⟩
    ⟨some "", some "default"⟩ (Or.inr rfl)

/-- C2 (amended): an uncaught oracle failure anywhere in the dispatch chain is
converted by the top-level handler into a 500 with the error's message, but a
partial mutation *is* applied: the user message appended at the start of the
turn stays in the session's messages with no assistant message for that turn
(while `last_recommended_books` and `last_query` are unchanged). -/
theorem c2_server_error_partial_append (store : Store) (req : ChatRequest) (o : Oracle)
    (q e : String) (hq : req.query = some q) (hne : q ≠ "")
    (h : (chatbot store req o).1 = .serverError e) :
    storeGet (chatbot store req o).2.1 (req.session_id.getD "default") =
      some { (storeGet store (req.session_id.getD "default")).getD ChatHistory.init with
             messages :=
               ((storeGet store (req.session_id.getD "default")).getD ChatHistory.init).messages
                 ++ [mkUser q] } := by
  simp only [chatbot, hq] at h ⊢
  rw [if_neg hne] at h ⊢
  cases hd : (dispatch q ((storeGet store (req.session_id.getD "default")).getD ChatHistory.init)
      o).outcome with
  | ok p =>
    obtain ⟨text, books⟩ := p
    rw [hd] at h
    simp at h
  | error e2 =>
    dsimp only
    rw [storeGet_storeSet]
    rw [(dispatch_outcome_state q ((storeGet store (req.session_id.getD "default")).getD
          ChatHistory.init) o).1 e2 hd]

/-- C2 counterexample: with a fresh session and an oracle whose topic
classification call raises, the handler returns 500 but the session is left
with the user message appended and no assistant message — partial state
mutation is applied. -/
theorem c2_counterexample :
    (chatbot [] ⟨some "hello", none⟩
       ⟨.error "boom", .ok .nullStr, .ok "false", .ok "", none, fun _ => .content none⟩).1 =
      .serverError "boom" ∧
    storeGet (chatbot [] ⟨some "hello", none⟩
       ⟨.error "boom", .ok .nullStr, .ok "false", .ok "", none, fun _ => .content none⟩).2.1
       "default" =
      some ⟨[mkUser "hello"], [], none⟩ :=
  ⟨rfl, rfl⟩

/-- C2 witness: the amended statement applied at the concrete raising
oracle. -/
theorem c2_witness :
    storeGet (chatbot [] ⟨some "hello", none⟩
       ⟨.error "boom", .ok .nullStr, .ok "false", .ok "", none, fun _ => .content none⟩).2.1
       "default" =
      some ⟨[mkUser "hello"], [], none⟩ :=
  c2_server_error_partial_append [] ⟨some "hello", none⟩
    ⟨.error "boom", .ok .nullStr, .ok "false", .ok "", none, fun _ => .content none⟩
    "hello" "boom" rfl (by decide) rfl

/-- C3 (amended): the history handed to the topic classifier is the session's
messages *after* the current query was appended, so the last-3 slice already
contains the current query and the query occurs at least twice in the oracle
context — once inside the history slice and once as the final user
message. -/
theorem c3_topic_context (q : String) (h0 : ChatHistory) (o : Oracle) (hist : List Message)
    (h : OracleCall.topic q hist ∈ (dispatch q h0 o).trace) :
    hist = h0.messages ++ [mkUser q] ∧
    2 ≤ (analyze_query_messages q hist).count (mkUser q) := by
  have hh : hist = h0.messages ++ [mkUser q] := by
    rcases dispatch_trace_mem q h0 o _ h with hm | hm | hm
    · rcases bookStep_trace_classify q _ o _ hm with ⟨lb, hc⟩ | ⟨j, hc⟩ <;> cases hc
    · rcases criteriaStep_trace_classify q _ o _ hm with ⟨lq, hc⟩ | ⟨lq, hc⟩ <;> cases hc
    · rcases topicStep_trace_classify q _ o _ hm with hc | hc
      · simp only [OracleCall.topic.injEq] at hc
        exact hc.2
      · cases hc
  refine ⟨hh, ?_⟩
  subst hh
  have hmem : mkUser q ∈ lastN (h0.messages ++ [mkUser q]) 3 :=
    mem_lastN_append h0.messages (mkUser q) 3 (by norm_num)
  have hpos : 0 < List.count (mkUser q) (lastN (h0.messages ++ [mkUser q]) 3) :=
    List.count_pos_iff.mpr hmem
  have hrw : analyze_query_messages q (h0.messages ++ [mkUser q]) =
      (⟨"system", topicSystemContent⟩ : Message) ::
        (lastN (h0.messages ++ [mkUser q]) 3 ++ [mkUser q]) := rfl
  rw [hrw, List.count_cons, List.count_append, List.count_singleton_self]
  omega

/-- C3 counterexample: on a fresh session, the history supplied to the topic
classification call is `[user q]` — it contains the current query — and the
resulting oracle context holds the query twice, refuting that it appears
exactly once. -/
theorem c3_counterexample :
    (dispatch "q" ⟨[], [], none⟩
      ⟨.ok "false", .ok .nullStr, .ok "false", .ok "", none, fun _ => .content none⟩).trace =
      [.topic "q" [mkUser "q"]] ∧
    (analyze_query_messages "q" [mkUser "q"]).count (mkUser "q") = 2 :=
  ⟨rfl, rfl⟩

/-- C3 witness: the amended statement applied at the fresh-session
instance. -/
theorem c3_witness :
    [mkUser "q"] = ([] : List Message) ++ [mkUser "q"] ∧
    2 ≤ (analyze_query_messages "q" [mkUser "q"]).count (mkUser "q") :=
  c3_topic_context "q" ⟨[], [], none⟩
    ⟨.ok "false", .ok .nullStr, .ok "false", .ok "", none, fun _ => .content none⟩
    [mkUser "q"]
    (show OracleCall.topic "q" [mkUser "q"] ∈ [OracleCall.topic "q" [mkUser "q"]] from
      List.mem_singleton.mpr rfl)

/-- C4 (confirmed): every `/chatbot` call that returns 200 grows the session's
messages by exactly two — the incoming query as a user message followed by the
response text as an assistant message — and a validation rejection (missing
query) leaves the store untouched. -/
theorem c4_messages_growth (store : Store) (req : ChatRequest) (o : Oracle) :
    (∀ text books sid2, (chatbot store req o).1 = .ok text books sid2 →
       ∃ q, req.query = some q ∧
         ∃ h2, storeGet (chatbot store req o).2.1 sid2 = some h2 ∧
           h2.messages = ((storeGet store sid2).getD ChatHistory.init).messages
                           ++ [mkUser q, mkAssistant text]) ∧
    (∀ e, (chatbot store req o).1 = .badRequest e → (chatbot store req o).2.1 = store) := by
  cases hq : req.query with
  | none =>
    refine ⟨fun text books sid2 h => ?_, fun e h => ?_⟩
    · simp [chatbot, hq] at h
    · simp [chatbot, hq]
  | some q =>
    by_cases hne : q = ""
    · subst hne
      refine ⟨fun text books sid2 h => ?_, fun e h => ?_⟩
      · simp [chatbot, hq] at h
      · simp [chatbot, hq]
    · refine ⟨fun text books sid2 h => ?_, fun e h => ?_⟩
      · simp only [chatbot, hq] at h ⊢
        rw [if_neg hne] at h ⊢
        cases hd : (dispatch q ((storeGet store (req.session_id.getD "default")).getD
            ChatHistory.init) o).outcome with
        | error e2 =>
          rw [hd] at h
          simp at h
        | ok p =>
          obtain ⟨t0, b0⟩ := p
          rw [hd] at h
          dsimp only at h ⊢
          simp only [ChatResponse.ok.injEq] at h
          obtain ⟨rfl, rfl, rfl⟩ := h
          refine ⟨q, rfl, _, storeGet_storeSet store _ _, ?_⟩
          rw [(dispatch_outcome_state q ((storeGet store (req.session_id.getD "default")).getD
              ChatHistory.init) o).2 t0 b0 hd]
          rw [List.append_assoc, List.singleton_append]
      · simp only [chatbot, hq] at h
        rw [if_neg hne] at h
        cases hd : (dispatch q ((storeGet store (req.session_id.getD "default")).getD
            ChatHistory.init) o).outcome with
        | error e2 =>
          rw [hd] at h
          simp at h
        | ok p =>
          obtain ⟨t0, b0⟩ := p
          rw [hd] at h
          simp at h

/-- C4 witness: an off-topic call on a fresh session returns 200 and the
session holds exactly the user message and the assistant rejection. -/
theorem c4_witness :
    ∃ q, (⟨some "hi there", none⟩ : ChatRequest).query = some q ∧
      ∃ h2, storeGet (chatbot [] ⟨some "hi there", none⟩
          ⟨.ok "false", .ok .nullStr, .ok "false", .ok "", none,
           fun _ => .content none⟩).2.1 "default" = some h2 ∧
        h2.messages = ((storeGet [] "default").getD ChatHistory.init).messages
                        ++ [mkUser q, mkAssistant rejectionText] :=
  (c4_messages_growth [] ⟨some "hi there", none⟩
    ⟨.ok "false", .ok .nullStr, .ok "false", .ok "", none, fun _ => .content none⟩).1
    rejectionText none "default" rfl

/-- C5 (confirmed): the dispatch is a priority-ordered guard chain — book
followup, then criteria followup, then topic classification, then fresh
recommendation — and it short-circuits on the first matching guard: the trace
of completion calls under each guard configuration is exactly the calls of the
branches up to and including the firing one, so no later branch's oracle call
or state mutation ever happens. -/
theorem c5_guard_chain (q : String) (h0 : ChatHistory) (o : Oracle) :
    (∀ j, h0.last_recommended_books ≠ [] → o.followupReply = .ok (.json j) →
       j.truthy = true →
       (dispatch q h0 o).trace =
         .bookFollowup q h0.last_recommended_books ::
           (if detailPromptOk j then [.detail j q] else []) ∧
       (dispatch q h0 o).state.last_recommended_books = h0.last_recommended_books ∧
       (dispatch q h0 o).state.last_query = h0.last_query) ∧
    (∀ lq s, bfFallsThrough h0 o → h0.last_query = some lq → lq ≠ "" →
       o.criteriaReply = .ok s → pyLower (pyStrip s) = "true" →
       (dispatch q h0 o).trace =
         bfTrace q h0 ++ [.criteriaFollowup q lq,
                          .recommend lq (h0.messages ++ [mkUser q]) (some q)]) ∧
    (∀ s, bfFallsThrough h0 o → cfFallsThrough h0 o →
       o.topicReply = .ok s → pyLower (pyStrip s) ≠ "true" →
       (dispatch q h0 o).trace =
         bfTrace q h0 ++ cfTrace q h0 ++ [.topic q (h0.messages ++ [mkUser q])]) ∧
    (∀ s, bfFallsThrough h0 o → cfFallsThrough h0 o →
       o.topicReply = .ok s → pyLower (pyStrip s) = "true" →
       (dispatch q h0 o).trace =
         bfTrace q h0 ++ cfTrace q h0 ++
           [.topic q (h0.messages ++ [mkUser q]),
            .recommend q (h0.messages ++ [mkUser q]) none]) := by
  refine ⟨?_, ?_, ?_, ?_⟩
  · intro j hb hr ht
    exact dispatch_bookmatch_case q h0 o j hb hr ht
  · intro lq s hbf hlq hne hr hs
    rw [dispatch_criteria_case q lq s h0 o hbf hlq hne hr hs]
  · intro s hbf hcf hr hs
    rw [dispatch_offtopic_case q s h0 o hbf hcf hr hs]
  · intro s hbf hcf hr hs
    rw [dispatch_fresh_case q s h0 o hbf hcf hr hs]

/-- C5 witness: on a fresh session whose topic reply is `"false"`, the only
completion call made is the topic classification. -/
theorem c5_witness :
    (dispatch "hi" ⟨[], [], none⟩
      ⟨.ok "false", .ok .nullStr, .ok "false", .ok "", none,
       fun _ => .content none⟩).trace = [.topic "hi" [mkUser "hi"]] := by
  simpa [bfTrace, cfTrace] using
    (c5_guard_chain "hi" ⟨[], [], none⟩
      ⟨.ok "false", .ok .nullStr, .ok "false", .ok "", none,
       fun _ => .content none⟩).2.2.1 "false" (Or.inl rfl) (Or.inl rfl) rfl (by decide)

/-- C6 (confirmed): in the criteria-followup branch the recommendation call
uses the *stored* `last_query` as the base query and passes the current query
only as criteria; `last_recommended_books` is replaced with the new list while
`last_query` keeps its pre-request value. -/
theorem c6_criteria_branch (q lq s : String) (h0 : ChatHistory) (o : Oracle)
    (hbf : bfFallsThrough h0 o) (hlq : h0.last_query = some lq) (hne : lq ≠ "")
    (hr : o.criteriaReply = .ok s) (hs : pyLower (pyStrip s) = "true") :
    OracleCall.recommend lq (h0.messages ++ [mkUser q]) (some q) ∈ (dispatch q h0 o).trace ∧
    (∀ q2 hist c2, OracleCall.recommend q2 hist c2 ∈ (dispatch q h0 o).trace →
       q2 = lq ∧ c2 = some q) ∧
    (dispatch q h0 o).state.last_recommended_books =
      (generate_response lq (h0.messages ++ [mkUser q]) (some q)
        o.recReply o.linkReplies).books.map Book.toJson ∧
    (dispatch q h0 o).state.last_query = h0.last_query := by
  rw [dispatch_criteria_case q lq s h0 o hbf hlq hne hr hs]
  refine ⟨List.mem_append_right _ (by simp), ?_, rfl, rfl⟩
  intro q2 hist c2 hmem
  rcases List.mem_append.mp hmem with hmem | hmem
  · exfalso
    unfold bfTrace at hmem
    by_cases hb : h0.last_recommended_books.isEmpty
    · rw [if_pos hb] at hmem
      simp at hmem
    · rw [if_neg hb] at hmem
      simp at hmem
  · simp only [List.mem_cons, List.mem_singleton, List.not_mem_nil, or_false] at hmem
    rcases hmem with h | h
    · cases h
    · simp only [OracleCall.recommend.injEq] at h
      exact ⟨h.1, h.2.2⟩

/-- C6 witness: the criteria branch on a concrete session re-sends the stored
query with the current query as criteria and leaves `last_query`
unchanged. -/
theorem c6_witness :
    OracleCall.recommend "sci-fi" [mkUser "old", mkUser "in Italian"] (some "in Italian") ∈
      (dispatch "in Italian" ⟨[mkUser "old"], [], some "sci-fi"⟩
        ⟨.ok "true", .ok .nullStr, .ok "true", .ok "", none,
         fun _ => .content none⟩).trace ∧
    (dispatch "in Italian" ⟨[mkUser "old"], [], some "sci-fi"⟩
      ⟨.ok "true", .ok .nullStr, .ok "true", .ok "", none,
       fun _ => .content none⟩).state.last_query = some "sci-fi" := by
  have h := c6_criteria_branch "in Italian" "sci-fi" "true"
    ⟨[mkUser "old"], [], some "sci-fi"⟩
    ⟨.ok "true", .ok .nullStr, .ok "true", .ok "", none, fun _ => .content none⟩
    (Or.inl rfl) rfl (by decide) rfl (by decide)
  exact ⟨h.1, h.2.2.2⟩

/-- C7 (confirmed): an off-topic classification yields the fixed rejection
text with no book list and leaves both `last_recommended_books` and
`last_query` unchanged. -/
theorem c7_offtopic_frame (q s : String) (h0 : ChatHistory) (o : Oracle)
    (hbf : bfFallsThrough h0 o) (hcf : cfFallsThrough h0 o)
    (hr : o.topicReply = .ok s) (hs : pyLower (pyStrip s) ≠ "true") :
    (dispatch q h0 o).outcome = .ok (rejectionText, none) ∧
    (dispatch q h0 o).state.last_recommended_books = h0.last_recommended_books ∧
    (dispatch q h0 o).state.last_query = h0.last_query := by
  rw [dispatch_offtopic_case q s h0 o hbf hcf hr hs]
  exact ⟨rfl, rfl, rfl⟩

/-- C7 witness: a concrete off-topic request on a session with stored
recommendations leaves them untouched. -/
theorem c7_witness :
    (dispatch "weather" ⟨[mkUser "old"], [Json.null], some "sci-fi"⟩
      ⟨.ok "false", .ok .nullStr, .ok "no", .ok "", none,
       fun _ => .content none⟩).outcome = .ok (rejectionText, none) ∧
    (dispatch "weather" ⟨[mkUser "old"], [Json.null], some "sci-fi"⟩
      ⟨.ok "false", .ok .nullStr, .ok "no", .ok "", none,
       fun _ => .content none⟩).state.last_recommended_books = [Json.null] ∧
    (dispatch "weather" ⟨[mkUser "old"], [Json.null], some "sci-fi"⟩
      ⟨.ok "false", .ok .nullStr, .ok "no", .ok "", none,
       fun _ => .content none⟩).state.last_query = some "sci-fi" :=
  c7_offtopic_frame "weather" "false" ⟨[mkUser "old"], [Json.null], some "sci-fi"⟩
    ⟨.ok "false", .ok .nullStr, .ok "no", .ok "", none, fun _ => .content none⟩
    (Or.inr (Or.inl rfl))
    (Or.inr (Or.inr ⟨"no", rfl, by decide⟩))
    rfl (by decide)

/-- C8 (confirmed): on a session whose `last_recommended_books` is empty, no
book-followup completion call is ever made — the route handler's guard skips
the branch — and `is_book_followup` itself returns null immediately for an
empty list, whatever the oracle would have replied. -/
theorem c8_no_followup_call_when_empty (q : String) (h0 : ChatHistory) (o : Oracle)
    (h : h0.last_recommended_books = []) :
    ((dispatch q h0 o).trace.all fun c => !c.isBookFollowup) = true ∧
    ∀ r, is_book_followup q [] r = .ok none := by
  constructor
  · rw [List.all_eq_true]
    intro c hc
    rcases dispatch_trace_mem q h0 o c hc with hm | hm | hm
    · have hbs : bookStep q { h0 with messages := h0.messages ++ [mkUser q] } o = .inl [] := by
        unfold bookStep
        rw [if_pos (by simp [h])]
      rw [hbs] at hm
      simp [stepTrace] at hm
    · rcases criteriaStep_trace_classify q _ o c hm with ⟨lq, hc2⟩ | ⟨lq, hc2⟩ <;>
        subst hc2 <;> rfl
    · rcases topicStep_trace_classify q _ o c hm with hc2 | hc2 <;> subst hc2 <;> rfl
  · intro r
    simp [is_book_followup]

/-- C8 witness: a concrete empty-books session makes no book-followup call
even when the followup reply would match. -/
theorem c8_witness :
    ((dispatch "more about it" ⟨[mkUser "old"], [], some "sci-fi"⟩
       ⟨.ok "true", .ok (.json (Json.str "x")), .ok "false", .ok "", none,
        fun _ => .content none⟩).trace.all fun c => !c.isBookFollowup) = true ∧
    is_book_followup "more about it" [] (.ok (.json (Json.str "x"))) = .ok none := by
  have h := c8_no_followup_call_when_empty "more about it"
    ⟨[mkUser "old"], [], some "sci-fi"⟩
    ⟨.ok "true", .ok (.json (Json.str "x")), .ok "false", .ok "", none,
     fun _ => .content none⟩ rfl
  exact ⟨h.1, h.2 (.ok (.json (Json.str "x")))⟩
